import Mathlib

/-!
Verification of the gl3w loader template (src/template/gl3w.header.c) against
its natural-language specification.  The runtime loader is shallowly embedded:
function pointers become `Option Ptr` (with `none` as NULL), the driver's
`glGetIntegerv` becomes an optional pure reader, each platform strategy becomes
a record of environment-supplied lookup functions, and places where the C code
can terminate the process (a firing `assert`, a call through a null function
pointer) are modelled by the `aborted` constructor of `Outcome`.
-/

namespace Gl3w

/-- Non-null machine addresses; a nullable pointer is `Option Ptr`. -/
abbrev Ptr := Nat

/-- The process-wide version record, `static struct { int major, minor; } version;`
(gl3w.header.c lines 89-91). -/
structure Version where
  major : Int
  minor : Int
deriving DecidableEq, Repr

/-- C zero-initialization of the static `version` variable. -/
def versionZero : Version := ⟨0, 0⟩

/-- The two `GLenum` arguments `parse_version` passes to `glGetIntegerv`. -/
inductive Pname where
  | glMajorVersion
  | glMinorVersion
deriving DecidableEq, Repr

/-- The driver as seen by `parse_version`: the `glGetIntegerv` entry point is a
nullable function pointer; when present it is a pure reader of the two version
enums (the C call writes through an out-parameter). -/
structure Driver where
  glGetIntegerv : Option (Pname → Int)

/-- `parse_version` (gl3w.header.c lines 93-104): returns `-1` when
`glGetIntegerv` is NULL; otherwise writes major then minor into `version` and
returns `-1` when the stored major is `< 3`, else `0`.  Modelled as a state
transformer on the `version` variable, returning (result, new version). -/
def parse_version (d : Driver) (v : Version) : Int × Version :=
  match d.glGetIntegerv with
  | none => (-1, v)
  | some g =>
    let v2 : Version := { major := g Pname.glMajorVersion, minor := g Pname.glMinorVersion }
    if v2.major < 3 then (-1, v2) else (0, v2)

/-- `gl3wIsSupported` (gl3w.header.c lines 116-123), a pure function of the
`version` state and the two int arguments; the C int result becomes `Bool`. -/
def gl3wIsSupported (v : Version) (major minor : Int) : Bool :=
  if major < 3 then false
  else if v.major = major then decide (v.minor ≥ minor)
  else decide (v.major ≥ major)

/-! ### Abstract loader state machine

`gl3wInit` (lines 108-114) is the fixed sequence
`open_libgl(); load_procs(); close_libgl(); return parse_version();`.
It is embedded as a composition of four instrumented steps over a state that
carries the platform's private state, the per-symbol pointer variables, the
`version` record, and an event trace recording the side-effect order. -/

/-- One runtime side effect of `gl3wInit`, in the order it is issued. -/
inductive Event where
  | evOpen
  | evLoadProcs
  | evClose
  | evParseVersion
deriving DecidableEq, Repr

/-- A platform strategy as the spec's capability triple: open-procedure,
get-address-procedure `(name) -> FunctionPointer|null`, close-procedure,
over private platform state `σ`. -/
structure Platform (σ : Type) where
  openLib : σ → σ
  getProc : σ → String → Option Ptr
  closeLib : σ → σ

/-- The loader's global state: platform-private state, the catalog symbols'
pointer variables, the `version` record, and the emitted event trace. -/
structure GState (σ : Type) where
  plat : σ
  ptrs : List (String × Option Ptr)
  version : Version
  events : List Event

/-- Modelled from the spec: the body of `load_procs` is generated code, only
declared in src/template/gl3w.header.c (line 106); the generator emitting its
body is not under src/.  Per the spec it performs, for every catalog symbol in
catalog order, one get-address call and one assignment of the (possibly null)
result to that symbol's pointer variable, with no early exit. -/
def load_procs_model (getProc : String → Option Ptr) (catalog : List String) :
    List (String × Option Ptr) :=
  catalog.map fun n => (n, getProc n)

/-- The `open_libgl()` call inside `gl3wInit`, with its trace event. -/
def open_step {σ : Type} (p : Platform σ) (st : GState σ) : GState σ :=
  { st with plat := p.openLib st.plat, events := st.events ++ [Event.evOpen] }

/-- The `load_procs()` call inside `gl3wInit`, with its trace event. -/
def load_step {σ : Type} (p : Platform σ) (catalog : List String) (st : GState σ) :
    GState σ :=
  { st with ptrs := load_procs_model (p.getProc st.plat) catalog,
            events := st.events ++ [Event.evLoadProcs] }

/-- The `close_libgl()` call inside `gl3wInit`, with its trace event. -/
def close_step {σ : Type} (p : Platform σ) (st : GState σ) : GState σ :=
  { st with plat := p.closeLib st.plat, events := st.events ++ [Event.evClose] }

/-- The final `return parse_version();` inside `gl3wInit`, with its trace event. -/
def parse_step {σ : Type} (d : Driver) (st : GState σ) : Int × GState σ :=
  let r := parse_version d st.version
  (r.1, { st with version := r.2, events := st.events ++ [Event.evParseVersion] })

/-- `gl3wInit` (gl3w.header.c lines 108-114):
`open_libgl(); load_procs(); close_libgl(); return parse_version();`. -/
def gl3wInit {σ : Type} (p : Platform σ) (d : Driver) (catalog : List String)
    (st : GState σ) : Int × GState σ :=
  parse_step d (close_step p (load_step p catalog (open_step p st)))

/-! ### Helper lemmas -/

/-- Unfolding `gl3wInit` into its net effect on the state. -/
theorem gl3wInit_eq {σ : Type} (p : Platform σ) (d : Driver) (catalog : List String)
    (st : GState σ) :
    gl3wInit p d catalog st =
      ((parse_version d st.version).1,
        { plat := p.closeLib (p.openLib st.plat),
          ptrs := load_procs_model (p.getProc (p.openLib st.plat)) catalog,
          version := (parse_version d st.version).2,
          events := st.events ++
            [Event.evOpen, Event.evLoadProcs, Event.evClose, Event.evParseVersion] }) := by
  simp [gl3wInit, open_step, load_step, close_step, parse_step]

/-- The result code of `parse_version` does not depend on the prior contents of
the `version` variable. -/
theorem parse_version_fst_const (d : Driver) (v v' : Version) :
    (parse_version d v).1 = (parse_version d v').1 := by
  cases hd : d.glGetIntegerv <;> simp [parse_version, hd]

/-- `parse_version` under a NULL `glGetIntegerv`: fail, leave `version` alone. -/
theorem parse_version_none (v : Version) (d : Driver) (hd : d.glGetIntegerv = none) :
    parse_version d v = (-1, v) := by
  simp [parse_version, hd]

/-- `parse_version` under an available `glGetIntegerv`: store both reported
numbers, fail exactly when the reported major is below 3. -/
theorem parse_version_some (v : Version) (d : Driver) (g : Pname → Int)
    (hd : d.glGetIntegerv = some g) :
    parse_version d v =
      (if g Pname.glMajorVersion < 3 then (-1 : Int) else 0,
        ⟨g Pname.glMajorVersion, g Pname.glMinorVersion⟩) := by
  by_cases hm : g Pname.glMajorVersion < 3 <;> simp [parse_version, hd, hm]

/-- With the zero version record every support query is false. -/
theorem isSupported_zero (major minor : Int) :
    gl3wIsSupported versionZero major minor = false := by
  show (if major < 3 then false
        else if (0 : Int) = major then decide ((0 : Int) ≥ minor)
        else decide ((0 : Int) ≥ major)) = false
  by_cases h1 : major < 3
  · simp [h1]
  · have h2 : ¬ (0 : Int) = major := by omega
    have h3 : ¬ (0 : Int) ≥ major := by omega
    simp [h1, h2, h3]

/-! ### Concrete platform strategies

Each strategy is embedded with the environment (the OS and driver behavior)
as an explicit record.  `Outcome` distinguishes a normal return from process
termination: the firing `assert` on the Apple path and a call through a null
function pointer on the POSIX path. -/

/-- Result of running a loader operation: a normal return value, or process
termination (assertion failure / crash). -/
inductive Outcome (α : Type) where
  | ok (val : α)
  | aborted
deriving DecidableEq, Repr

/-- Windows environment: the results of `LoadLibraryA("opengl32.dll")`,
`wglGetProcAddress`, and `GetProcAddress` (the latter taking the possibly-NULL
module handle). -/
structure WinEnv where
  loadLibraryOpengl32 : Option Ptr
  wglGetProcAddress : String → Option Ptr
  getProcAddress : Option Ptr → String → Option Ptr

/-- Windows `open_libgl` (lines 9-12): `libgl = LoadLibraryA("opengl32.dll");`
stores whatever handle the call yields; never terminates. -/
def open_libgl_win (env : WinEnv) : Outcome (Option Ptr) :=
  Outcome.ok env.loadLibraryOpengl32

/-- Windows `get_proc` (lines 19-27): try `wglGetProcAddress`, and only when it
yields NULL fall back to `GetProcAddress(libgl, proc)`. -/
def get_proc_win (env : WinEnv) (libgl : Option Ptr) (proc : String) :
    Outcome (Option Ptr) :=
  match env.wglGetProcAddress proc with
  | some res => Outcome.ok (some res)
  | none => Outcome.ok (env.getProcAddress libgl proc)

/-- Windows `close_libgl` (lines 14-17): `FreeLibrary(libgl)`; never terminates. -/
def close_libgl_win : Outcome Unit := Outcome.ok ()

/-- Apple environment: the result of `CFBundleCreate` for the OpenGL framework
URL, and the behavior of `CFBundleGetFunctionPointerForName`. -/
structure AppleEnv where
  cfBundleCreate : Option Ptr
  cfBundleGetFunctionPointerForName : Option Ptr → String → Option Ptr

/-- Apple `open_libgl` (lines 34-42): creates the bundle and then runs
`assert(bundle != NULL)`; a NULL bundle fires the assertion, terminating the
process, so the open-procedure only returns when the bundle was created. -/
def open_libgl_apple (env : AppleEnv) : Outcome (Option Ptr) :=
  match env.cfBundleCreate with
  | none => Outcome.aborted
  | some b => Outcome.ok (some b)

/-- Apple `get_proc` (lines 50-59): a single
`CFBundleGetFunctionPointerForName` lookup; never terminates. -/
def get_proc_apple (env : AppleEnv) (bundle : Option Ptr) (proc : String) :
    Outcome (Option Ptr) :=
  Outcome.ok (env.cfBundleGetFunctionPointerForName bundle proc)

/-- POSIX environment: the result of `dlopen("libGL.so.1", ...)`, the behavior
of `dlsym` (taking the possibly-NULL handle, as the C code does), and `codeAt`,
the behavior of the function that lives at a given non-null address — used to
run the `glXGetProcAddressARB` pointer obtained via `dlsym`. -/
structure PosixEnv where
  dlopenLibGL : Option Ptr
  dlsym : Option Ptr → String → Option Ptr
  codeAt : Ptr → String → Option Ptr

/-- The two POSIX globals set by `open_libgl`:
`static void *libgl;` and `static PFNGLXGETPROCADDRESSPROC glx_get_proc_address;`. -/
structure PosixState where
  libgl : Option Ptr
  glx_get_proc_address : Option Ptr
deriving DecidableEq, Repr

/-- POSIX `open_libgl` (lines 67-71): `libgl = dlopen(...)` followed by
`glx_get_proc_address = dlsym(libgl, "glXGetProcAddressARB")`, with no check of
either result. -/
def open_libgl_posix (env : PosixEnv) : PosixState :=
  let libgl := env.dlopenLibGL
  { libgl := libgl, glx_get_proc_address := env.dlsym libgl "glXGetProcAddressARB" }

/-- POSIX `get_proc` (lines 78-86): calls through the `glx_get_proc_address`
pointer unconditionally — a crash when that pointer is NULL — and only when the
call yields NULL falls back to `dlsym(libgl, proc)`. -/
def get_proc_posix (env : PosixEnv) (st : PosixState) (proc : String) :
    Outcome (Option Ptr) :=
  match st.glx_get_proc_address with
  | none => Outcome.aborted
  | some a =>
    match env.codeAt a proc with
    | some res => Outcome.ok (some res)
    | none => Outcome.ok (env.dlsym st.libgl proc)

/-! ### Generation pipeline -/

/-- Modelled from the spec: the generation stage (spec parser, symbol catalog
builder, header and loader emitters) is not under src/ — only its emitted
templates are.  One fold step of the parser: a line ending in a colon opens a
new category, a blank line is skipped, any other line is a prototype recorded
under the current category. -/
def parseSpecStep (acc : String × List (String × String)) (line : String) :
    String × List (String × String) :=
  if line.endsWith ":" then (line.dropRight 1, acc.2)
  else if line = "" then acc
  else (acc.1, acc.2 ++ [(acc.1, line)])

/-- Modelled from the spec: the spec parser tokenizes category headers and
collects prototype lines verbatim, in file order, as (category, prototype)
pairs. -/
def parseSpec (lines : List String) : List (String × String) :=
  (lines.foldl parseSpecStep ("", [])).2

/-- Modelled from the spec: the function name of a prototype
`returnType name(paramType paramName, ...)` — the last blank-separated token
before the opening parenthesis. -/
def protoName (proto : String) : String :=
  (((proto.splitOn "(").headD "").splitOn " ").getLastD ""

/-- Modelled from the spec: the catalog builder inserts prototypes into a
name-keyed collection in first-seen order, discarding any later occurrence of
an already-present name. -/
def buildCatalog (pairs : List (String × String)) : List (String × String) :=
  pairs.foldl
    (fun acc pr =>
      if acc.any (fun q => protoName q.2 = protoName pr.2) then acc
      else acc ++ [pr])
    []

/-- Modelled from the spec: one header line per catalog symbol — an external
function-pointer variable declaration with the fixed `gl3w` name prefixed. -/
def emitHeaderLine (pr : String × String) : String :=
  "extern GL3WglProc gl3w" ++ protoName pr.2 ++ ";"

/-- Modelled from the spec: the header emitter, a pure function of the catalog. -/
def emit_header (catalog : List (String × String)) : String :=
  String.intercalate "\x0a" (catalog.map emitHeaderLine)

/-- Modelled from the spec: one loader assignment statement per catalog symbol. -/
def emitLoaderLine (pr : String × String) : String :=
  "\tgl3w" ++ protoName pr.2 ++ " = get_proc(\"" ++ protoName pr.2 ++ "\");"

/-- Modelled from the spec: the loader emitter, a pure function of the catalog. -/
def emit_loader (catalog : List (String × String)) : String :=
  String.intercalate "\x0a" (catalog.map emitLoaderLine)

/-- Modelled from the spec: the whole generation stage — parse, build the
catalog, render both artifacts. -/
def generate (lines : List String) : String × String :=
  let catalog := buildCatalog (parseSpec lines)
  (emit_header catalog, emit_loader catalog)

/-! ### Concrete instances used by witnesses and counterexamples -/

/-- A trivial platform over unit state, resolving nothing. -/
def trivPlatform : Platform Unit :=
  { openLib := fun s => s, getProc := fun _ _ => none, closeLib := fun s => s }

/-- The initial loader state over the trivial platform: no pointers resolved,
zero version, empty trace. -/
def st0 : GState Unit :=
  { plat := (), ptrs := [], version := versionZero, events := [] }

/-- A driver whose `glGetIntegerv` entry point is NULL. -/
def driverNone : Driver := ⟨none⟩

/-- A driver reporting version 4.5. -/
def driverG45 : Pname → Int :=
  fun p => match p with
  | Pname.glMajorVersion => 4
  | Pname.glMinorVersion => 5

/-- The driver record around `driverG45`. -/
def driver45 : Driver := ⟨some driverG45⟩

/-- A driver reporting major version 2 (below the supported minimum). -/
def driverG2 : Pname → Int :=
  fun p => match p with
  | Pname.glMajorVersion => 2
  | Pname.glMinorVersion => 1

/-- The driver record around `driverG2`. -/
def driverMajor2 : Driver := ⟨some driverG2⟩

/-- An Apple environment in which `CFBundleCreate` fails. -/
def appleEnvFail : AppleEnv := ⟨none, fun _ _ => none⟩

/-- A POSIX environment in which `dlopen` fails and `dlsym` resolves nothing. -/
def posixEnvFail : PosixEnv := ⟨none, fun _ _ => none, fun _ _ => none⟩

/-- A Windows environment whose extension lookup always yields address 9. -/
def winEnvSample : WinEnv := ⟨some 1, fun _ => some 9, fun _ _ => none⟩

/-- A symbol lookup resolving `glBar` to address 7 and nothing else. -/
def fooBarLookup : String → Option Ptr :=
  fun n => if n = "glBar" then some 7 else none

/-! ### Claims -/

/-- C1 (counterexample): the claim asserts that with VersionInfo = {3, 2} the
call `gl3wIsSupported(2, 0)` returns true; the code returns false, because the
first guard rejects every `major < 3` before the version record is consulted. -/
theorem C1_counterexample : gl3wIsSupported ⟨3, 2⟩ 2 0 = false := by decide

/-- C1 (amended): `gl3wIsSupported(major, minor)` returns false if `major < 3`;
otherwise, if `version.major == major` it returns `version.minor >= minor`;
otherwise it returns `version.major >= major`.  With version = {3, 2}:
isSupported(2,0) is false, isSupported(3,1) is true, isSupported(3,3) is false,
isSupported(4,0) is false, isSupported(3,2) is true. -/
theorem C1_isSupported_semantics (v : Version) (major minor : Int) :
    gl3wIsSupported v major minor =
      (if major < 3 then false
       else if v.major = major then decide (v.minor ≥ minor)
       else decide (v.major ≥ major)) ∧
    gl3wIsSupported ⟨3, 2⟩ 2 0 = false ∧
    gl3wIsSupported ⟨3, 2⟩ 3 1 = true ∧
    gl3wIsSupported ⟨3, 2⟩ 3 3 = false ∧
    gl3wIsSupported ⟨3, 2⟩ 4 0 = false ∧
    gl3wIsSupported ⟨3, 2⟩ 3 2 = true := by
  refine ⟨rfl, ?_, ?_, ?_, ?_, ?_⟩ <;> decide

/-- C2: `parse_version` returns the error sentinel `-1` exactly when
`glGetIntegerv` is NULL or the reported major version is below 3; its result is
always `-1` or `0`; and on success it stores the reported major and minor into
the process-wide version record and returns `0`. -/
theorem C2_parse_version_spec (d : Driver) (v : Version) :
    ((parse_version d v).1 = -1 ↔
      d.glGetIntegerv = none ∨
        ∃ g, d.glGetIntegerv = some g ∧ g Pname.glMajorVersion < 3) ∧
    ((parse_version d v).1 = -1 ∨ (parse_version d v).1 = 0) ∧
    (∀ g, d.glGetIntegerv = some g → ¬ g Pname.glMajorVersion < 3 →
      (parse_version d v).1 = 0 ∧
      (parse_version d v).2.major = g Pname.glMajorVersion ∧
      (parse_version d v).2.minor = g Pname.glMinorVersion) := by
  cases hd : d.glGetIntegerv with
  | none =>
    simp only [parse_version_none v d hd]
    refine ⟨by simp, by simp, ?_⟩
    intro g hg _
    simp at hg
  | some g =>
    by_cases hm : g Pname.glMajorVersion < 3
    · simp only [parse_version_some v d g hd, if_pos hm]
      refine ⟨by simp [hm], by simp, ?_⟩
      intro g' hg' hm'
      have hgg : g = g' := Option.some.inj hg'
      subst hgg
      exact absurd hm hm'
    · simp only [parse_version_some v d g hd, if_neg hm]
      refine ⟨by simp [hm], by simp, ?_⟩
      intro g' hg' _
      have hgg : g = g' := Option.some.inj hg'
      subst hgg
      simp

/-- C2 (witness): at a driver reporting version 4.5, `parse_version` succeeds
and stores both numbers. -/
theorem C2_witness :
    (parse_version driver45 versionZero).1 = 0 ∧
    (parse_version driver45 versionZero).2.major = 4 ∧
    (parse_version driver45 versionZero).2.minor = 5 :=
  (C2_parse_version_spec driver45 versionZero).2.2 driverG45 rfl (by decide)

/-- C3: starting from an empty trace, `gl3wInit` issues exactly the events
open, load-all-procs, close, parse-version, in that order, and returns
`parse_version`'s result. -/
theorem C3_gl3wInit_sequence {σ : Type} (p : Platform σ) (d : Driver)
    (catalog : List String) (st : GState σ) (h : st.events = []) :
    (gl3wInit p d catalog st).2.events =
      [Event.evOpen, Event.evLoadProcs, Event.evClose, Event.evParseVersion] ∧
    (gl3wInit p d catalog st).1 = (parse_version d st.version).1 := by
  rw [gl3wInit_eq]
  simp [h]

/-- C3 (witness): the sequence property at the trivial platform, a NULL
`glGetIntegerv` driver, the empty catalog and the initial state. -/
theorem C3_witness :
    (gl3wInit trivPlatform driverNone [] st0).2.events =
      [Event.evOpen, Event.evLoadProcs, Event.evClose, Event.evParseVersion] ∧
    (gl3wInit trivPlatform driverNone [] st0).1 =
      (parse_version driverNone st0.version).1 :=
  C3_gl3wInit_sequence trivPlatform driverNone [] st0 rfl

/-- C4: the return value of `gl3wInit` depends only on the driver — any two
platforms, catalogs and states yield the same code for the same driver; the
code is nonzero exactly when `glGetIntegerv` is NULL or the reported major is
below 3; in particular, under a driver reporting major 2 the code is nonzero
for every platform and catalog. -/
theorem C4_init_return_version_gate :
    (∀ (σ σ' : Type) (p : Platform σ) (p' : Platform σ') (d : Driver)
        (catalog catalog' : List String) (st : GState σ) (st' : GState σ'),
      (gl3wInit p d catalog st).1 = (gl3wInit p' d catalog' st').1) ∧
    (∀ (σ : Type) (p : Platform σ) (d : Driver) (catalog : List String)
        (st : GState σ),
      ((gl3wInit p d catalog st).1 ≠ 0 ↔
        d.glGetIntegerv = none ∨
          ∃ g, d.glGetIntegerv = some g ∧ g Pname.glMajorVersion < 3)) ∧
    (∀ (σ : Type) (p : Platform σ) (catalog : List String) (st : GState σ),
      (gl3wInit p driverMajor2 catalog st).1 ≠ 0) := by
  have hret : ∀ (σ : Type) (p : Platform σ) (d : Driver) (catalog : List String)
      (st : GState σ), (gl3wInit p d catalog st).1 = (parse_version d st.version).1 := by
    intro σ p d catalog st
    rw [gl3wInit_eq]
  have hiff : ∀ (σ : Type) (p : Platform σ) (d : Driver) (catalog : List String)
      (st : GState σ),
      ((gl3wInit p d catalog st).1 ≠ 0 ↔
        d.glGetIntegerv = none ∨
          ∃ g, d.glGetIntegerv = some g ∧ g Pname.glMajorVersion < 3) := by
    intro σ p d catalog st
    rw [hret]
    cases hd : d.glGetIntegerv with
    | none =>
      simp only [parse_version_none st.version d hd]
      simp
    | some g =>
      by_cases hm : g Pname.glMajorVersion < 3
      · simp only [parse_version_some st.version d g hd, if_pos hm]
        simp [hm]
      · simp only [parse_version_some st.version d g hd, if_neg hm]
        simp [hm]
  refine ⟨?_, hiff, ?_⟩
  · intro σ σ' p p' d catalog catalog' st st'
    rw [hret, hret]
    exact parse_version_fst_const d st.version st'.version
  · intro σ p catalog st
    rw [hiff]
    exact Or.inr ⟨driverG2, rfl, by decide⟩

/-- C4 (witness): under the major-2 driver, at the trivial platform and empty
catalog, `gl3wInit` returns a nonzero code. -/
theorem C4_witness : (gl3wInit trivPlatform driverMajor2 [] st0).1 ≠ 0 :=
  C4_init_return_version_gate.2.2 Unit trivPlatform [] st0

/-- C5 (counterexample): the claim asserts no failure path terminates the
process; on the Apple strategy, a failed `CFBundleCreate` (a module-open
failure) fires `assert(bundle != NULL)`, terminating the process. -/
theorem C5_counterexample :
    appleEnvFail.cfBundleCreate = none ∧
    open_libgl_apple appleEnvFail = Outcome.aborted := by
  exact ⟨rfl, rfl⟩

/-- C5 (amended): on the Windows strategy every loader operation returns
normally (failures degrade to null pointers), and `parse_version` always
degrades to a status code; but on the Apple strategy the open-procedure
terminates the process exactly when bundle creation fails, and on the POSIX
strategy `get_proc` terminates the process exactly when the
`glXGetProcAddressARB` pointer was not resolved. -/
theorem C5_failure_degradation :
    (∀ (env : WinEnv), open_libgl_win env = Outcome.ok env.loadLibraryOpengl32) ∧
    (∀ (env : WinEnv) (libgl : Option Ptr) (proc : String),
      get_proc_win env libgl proc ≠ Outcome.aborted) ∧
    (∀ (d : Driver) (v : Version),
      (parse_version d v).1 = -1 ∨ (parse_version d v).1 = 0) ∧
    (∀ (env : AppleEnv),
      (open_libgl_apple env = Outcome.aborted ↔ env.cfBundleCreate = none)) ∧
    (∀ (env : PosixEnv) (st : PosixState) (proc : String),
      (get_proc_posix env st proc = Outcome.aborted ↔
        st.glx_get_proc_address = none)) := by
  refine ⟨fun env => rfl, ?_, ?_, ?_, ?_⟩
  · intro env libgl proc
    unfold get_proc_win
    cases env.wglGetProcAddress proc <;> simp
  · intro d v
    cases hd : d.glGetIntegerv with
    | none => simp [parse_version, hd]
    | some g => by_cases hm : g Pname.glMajorVersion < 3 <;> simp [parse_version, hd, hm]
  · intro env
    unfold open_libgl_apple
    cases h : env.cfBundleCreate <;> simp [h]
  · intro env st proc
    unfold get_proc_posix
    cases h : st.glx_get_proc_address with
    | none => simp
    | some a => cases hc : env.codeAt a proc <;> simp [hc]

/-- C5 (witness): the Windows open-procedure returns its handle normally at
the sample environment, and its get-address call never terminates there. -/
theorem C5_witness :
    open_libgl_win winEnvSample = Outcome.ok winEnvSample.loadLibraryOpengl32 ∧
    get_proc_win winEnvSample (some 1) "glEnd" ≠ Outcome.aborted :=
  ⟨C5_failure_degradation.1 winEnvSample,
   C5_failure_degradation.2.1 winEnvSample (some 1) "glEnd"⟩

/-- C6 (counterexample): the claim asserts that after a failed module open
every get-address call returns null gracefully; on the POSIX strategy, in an
environment where `dlopen` fails and `dlsym` resolves nothing, `open_libgl`
leaves `glx_get_proc_address` NULL and the next `get_proc` call runs through
that null function pointer — a crash, not a null return. -/
theorem C6_counterexample :
    (open_libgl_posix posixEnvFail).libgl = none ∧
    get_proc_posix posixEnvFail (open_libgl_posix posixEnvFail) "glClear" =
      Outcome.aborted := by
  exact ⟨rfl, rfl⟩

/-- C6 (amended): `gl3wInit` performs no explicit check of the module-open
result before resolving symbols (the whole catalog is resolved whatever the
open-procedure did); after a failed open, get-address calls on the Windows
strategy never crash (they return the platform lookups' possibly-null result);
but on the POSIX strategy `get_proc` crashes through a null function pointer
whenever `glXGetProcAddressARB` itself was not resolved, and only returns
gracefully when that pointer was resolved. -/
theorem C6_open_failure_handling :
    (∀ (σ : Type) (p : Platform σ) (d : Driver) (catalog : List String)
        (st : GState σ),
      ((gl3wInit p d catalog st).2.ptrs).length = catalog.length) ∧
    (∀ (env : WinEnv) (proc : String),
      get_proc_win env none proc ≠ Outcome.aborted) ∧
    (∀ (env : PosixEnv) (st : PosixState) (proc : String),
      st.glx_get_proc_address = none →
        get_proc_posix env st proc = Outcome.aborted) ∧
    (∀ (env : PosixEnv) (st : PosixState) (proc : String) (a : Ptr),
      st.glx_get_proc_address = some a →
        get_proc_posix env st proc ≠ Outcome.aborted) := by
  refine ⟨?_, ?_, ?_, ?_⟩
  · intro σ p d catalog st
    rw [gl3wInit_eq]
    simp [load_procs_model]
  · intro env proc
    unfold get_proc_win
    cases env.wglGetProcAddress proc <;> simp
  · intro env st proc h
    simp [get_proc_posix, h]
  · intro env st proc a h
    cases hc : env.codeAt a proc <;> simp [get_proc_posix, h, hc]

/-- C6 (witness): the POSIX crash case of the amended claim at the failing
environment, and the Windows graceful case at the sample environment. -/
theorem C6_witness :
    get_proc_posix posixEnvFail ⟨none, none⟩ "glBegin" = Outcome.aborted ∧
    get_proc_win winEnvSample none "glBegin" ≠ Outcome.aborted :=
  ⟨C6_open_failure_handling.2.2.1 posixEnvFail ⟨none, none⟩ "glBegin" rfl,
   C6_open_failure_handling.2.1 winEnvSample "glBegin"⟩

/-- C7: the `version` record is zero-initialized, and when initialization runs
with a NULL `glGetIntegerv` (failing before the version query) the record still
equals zero afterwards and every subsequent support query on it returns false. -/
theorem C7_version_zero_lifecycle {σ : Type} (p : Platform σ) (d : Driver)
    (catalog : List String) (st : GState σ)
    (hv : st.version = versionZero) (hd : d.glGetIntegerv = none)
    (major minor : Int) :
    versionZero.major = 0 ∧ versionZero.minor = 0 ∧
    (gl3wInit p d catalog st).2.version = versionZero ∧
    gl3wIsSupported (gl3wInit p d catalog st).2.version major minor = false := by
  have hver : (gl3wInit p d catalog st).2.version = versionZero := by
    have hpv : parse_version d st.version = (-1, versionZero) := by
      rw [parse_version_none st.version d hd, hv]
    rw [gl3wInit_eq]
    simp [hpv]
  refine ⟨rfl, rfl, hver, ?_⟩
  rw [hver]
  exact isSupported_zero major minor

/-- C7 (witness): the lifecycle property at the trivial platform, the NULL
`glGetIntegerv` driver, the empty catalog, the initial state, and the support
query (4, 1). -/
theorem C7_witness :
    versionZero.major = 0 ∧ versionZero.minor = 0 ∧
    (gl3wInit trivPlatform driverNone [] st0).2.version = versionZero ∧
    gl3wIsSupported (gl3wInit trivPlatform driverNone [] st0).2.version 4 1 = false :=
  C7_version_zero_lifecycle trivPlatform driverNone [] st0 rfl rfl 4 1

/-- C8: `load_procs` resolves every catalog symbol in catalog order, assigning
each (possibly null) result, with no early exit — entry `i` of the result is
exactly symbol `i` paired with its lookup; in the spec's concrete scenario a
null `glFoo` does not prevent `glBar` from being resolved; and `gl3wInit`
still completes, its code given by `parse_version` alone and its pointer state
by the full catalog resolution. -/
theorem C8_load_procs_no_early_exit :
    (∀ (getProc : String → Option Ptr) (catalog : List String) (i : Nat),
      (load_procs_model getProc catalog)[i]? =
        (catalog[i]?).map fun n => (n, getProc n)) ∧
    load_procs_model fooBarLookup ["glFoo", "glBar"] =
      [("glFoo", none), ("glBar", some 7)] ∧
    (∀ (σ : Type) (p : Platform σ) (d : Driver) (catalog : List String)
        (st : GState σ),
      (gl3wInit p d catalog st).1 = (parse_version d st.version).1 ∧
      (gl3wInit p d catalog st).2.ptrs =
        load_procs_model (p.getProc (p.openLib st.plat)) catalog) := by
  refine ⟨?_, ?_, ?_⟩
  · intro getProc catalog i
    simp [load_procs_model]
  · rfl
  · intro σ p d catalog st
    rw [gl3wInit_eq]
    exact ⟨rfl, rfl⟩

/-- C9: generation is deterministic — running the (spec-modelled) generation
pipeline twice on the same input byte stream yields identical header and
loader artifacts, and the header emitter is a pure function of the catalog:
identical catalogs give byte-identical header text. -/
theorem C9_generation_deterministic :
    (∀ (lines : List String), generate lines = generate lines) ∧
    (∀ (c1 c2 : List (String × String)), c1 = c2 → emit_header c1 = emit_header c2) := by
  exact ⟨fun _ => rfl, fun _ _ h => h ▸ rfl⟩

/-- C9 (witness): the header-emitter purity at a concrete one-symbol catalog. -/
theorem C9_witness :
    emit_header [("core", "void glClear(GLbitfield mask)")] =
      emit_header [("core", "void glClear(GLbitfield mask)")] :=
  C9_generation_deterministic.2
    [("core", "void glClear(GLbitfield mask)")]
    [("core", "void glClear(GLbitfield mask)")] rfl

/-- C10: on the Windows and POSIX strategies `get_proc` is a fixed two-step
fallback — it returns the extension lookup's result (`wglGetProcAddress`,
resp. the resolved `glXGetProcAddressARB`) whenever that is non-null, and only
when it is null returns the generic module lookup's result (`GetProcAddress`,
resp. `dlsym`) for the same name. -/
theorem C10_get_proc_fallback :
    (∀ (env : WinEnv) (libgl : Option Ptr) (proc : String) (res : Ptr),
      env.wglGetProcAddress proc = some res →
        get_proc_win env libgl proc = Outcome.ok (some res)) ∧
    (∀ (env : WinEnv) (libgl : Option Ptr) (proc : String),
      env.wglGetProcAddress proc = none →
        get_proc_win env libgl proc = Outcome.ok (env.getProcAddress libgl proc)) ∧
    (∀ (env : PosixEnv) (st : PosixState) (proc : String) (a : Ptr) (res : Ptr),
      st.glx_get_proc_address = some a → env.codeAt a proc = some res →
        get_proc_posix env st proc = Outcome.ok (some res)) ∧
    (∀ (env : PosixEnv) (st : PosixState) (proc : String) (a : Ptr),
      st.glx_get_proc_address = some a → env.codeAt a proc = none →
        get_proc_posix env st proc = Outcome.ok (env.dlsym st.libgl proc)) := by
  refine ⟨?_, ?_, ?_, ?_⟩
  · intro env libgl proc res h
    unfold get_proc_win
    rw [h]
  · intro env libgl proc h
    unfold get_proc_win
    rw [h]
  · intro env st proc a res h hc
    simp [get_proc_posix, h, hc]
  · intro env st proc a h hc
    simp [get_proc_posix, h, hc]

/-- C10 (witness): the extension lookup wins at the sample Windows environment,
whose `wglGetProcAddress` resolves every name to address 9. -/
theorem C10_witness :
    get_proc_win winEnvSample (some 1) "glBlendFunc" = Outcome.ok (some 9) :=
  C10_get_proc_fallback.1 winEnvSample (some 1) "glBlendFunc" 9 rfl

end Gl3w
